import Mathlib

/-!
Verification of the strava-mcp-server heuristic core against its
natural-language specification.

The repository's interesting logic lives in
`src/strava_mcp_server/main.py` (the installed MCP server) and `app.py`
(the near-duplicate Hugging-Face-Spaces variant).  We shallowly embed the
pure fragments of that Python code: numbers become rationals (`ℚ`), the
heterogeneous duration representation becomes an inductive type, optional
record fields become `Option`, Python truthiness is modelled explicitly,
and external collaborators (the Strava client, the Nominatim geocoder, the
token-refresh endpoint) become oracle parameters.  Exceptions raised by a
collaborator are modelled with `Except`.
-/

/-- Python truthiness of an optional string: `None` and `""` are falsy. -/
def pyTruthyS : Option String → Bool
  | none => false
  | some s => s ≠ ""

/-- Python `a or b` on optional strings: the first operand if truthy,
otherwise the second operand (which is returned even when falsy). -/
def pyOrS (a b : Option String) : Option String :=
  if pyTruthyS a then a else b

/-- Python `str.strip()`: remove leading and trailing whitespace. -/
def pyStrip (s : String) : String :=
  String.mk (((s.data.dropWhile Char.isWhitespace).reverse.dropWhile Char.isWhitespace).reverse)

/-- Python `str.lower()`.  `Char.toLower` lowercases ASCII letters, which
coincides with Python on every string manipulated by this code base (the
accented characters appearing in the French templates are already
lowercase). -/
def pyLower (s : String) : String :=
  String.mk (s.data.map Char.toLower)

/-- Contiguous-sublist test on character lists, by direct search. -/
def containsSub (hay needle : List Char) : Bool :=
  match hay with
  | [] => needle.isEmpty
  | _ :: t => needle.isPrefixOf hay || containsSub t needle

/-- Python `needle in hay` on strings (substring containment). -/
def pyContains (hay needle : String) : Bool :=
  containsSub hay.data needle.data

/-- The heterogeneous duration representation accepted by `to_seconds`:
either an object exposing a `total_seconds()` accessor (e.g. a
`timedelta`), or a plain number of seconds (stravalib `Duration`). -/
inductive PyDuration where
  | tdelta (secs : ℚ)
  | intSecs (n : ℤ)
deriving DecidableEq

/-- Function `to_seconds` from `main.py` (identical in `app.py`): `None` maps to 0,
a `total_seconds` carrier yields that value, an integer is returned as-is
via `int(duration)`. -/
def toSeconds : Option PyDuration → ℚ
  | none => 0
  | some (.tdelta s) => s
  | some (.intSecs n) => (n : ℚ)

/-- Decidable non-negativity of a duration value, used to state the
amended normalizer contract. -/
def durNonneg : Option PyDuration → Bool
  | none => true
  | some (.tdelta s) => decide (0 ≤ s)
  | some (.intSecs n) => decide (0 ≤ n)

/-- An activity record as consumed by the heuristic tools.  Summary and
detailed fields are carried on one record: the server's per-candidate
`client.get_activity(activity.id)` detail fetch is modelled as returning
the same record, which simply also carries the detailed fields
(`average_cadence`, `suffer_score`, location fields). -/
structure Activity where
  id : ℤ
  name : String
  atype : Option String
  sport_type : Option String
  distance : Option ℚ
  moving_time : Option PyDuration
  total_elevation_gain : Option ℚ
  average_cadence : Option ℚ
  suffer_score : Option ℚ
  start_latlng : Option (ℚ × ℚ)
  location_city : Option String
  location_state : Option String
  location_country : Option String
deriving DecidableEq

/-- The two reason strings `detect_ebike_activities` can append.
`cadence rpm` models the French f-string
"Données de cadence présentes ({rpm} rpm) - capteur de vélo électrique";
`lowEffort r` models "Effort faible pour le dénivelé (ratio {r})", so each
constructor carries the numeric value the Python message interpolates. -/
inductive EbikeReason where
  | cadence (rpm : ℚ)
  | lowEffort (r : ℚ)
deriving DecidableEq

/-- The fixed recommendation string attached to every suspicious record. -/
def recText : String := "Probablement E-MTB - fix_ebike_activity()"

/-- One entry of the list returned by `detect_ebike_activities`.  The
display-only rounded metric fields of the Python dict (distance_km,
speed_kmh, ...) are not referenced by any claim and are omitted; the
fields below are carried exactly as computed by the source. -/
structure EbikeResult where
  id : ℤ
  name : String
  atype : String
  elevation_gain : ℚ
  suffer_score : ℚ
  reasons : List EbikeReason
  recommendation : String
deriving DecidableEq

/-- The per-activity body of the `detect_ebike_activities` loop
(`main.py` lines 328-402): eligibility guards (`"Ride" in type`, no "E"
marker in a truthy sport_type, at least 600 s moving time), then the
cadence signal and the effort-ratio signal; `suffer_score or 0`
substitutes 0 for an absent score, and the effort ratio is only computed
when elevation exceeds 100 m.  Returns `some` record iff the activity is
flagged suspicious. -/
def classifyEbike (thr minElev : ℚ) (a : Activity) : Option EbikeResult :=
  let atype := a.atype.getD ""
  if !(pyContains atype "Ride") then none
  else if pyTruthyS a.sport_type && pyContains (a.sport_type.getD "") "E" then none
  else
    let elevation := a.total_elevation_gain.getD 0
    let mt := toSeconds a.moving_time
    if mt < 600 then none
    else
      let suffer := a.suffer_score.getD 0
      let effortR : Option ℚ := if 100 < elevation then some (suffer / (elevation / 100)) else none
      let cadenceFires : Bool :=
        match a.average_cadence with
        | some c => decide (0 < c)
        | none => false
      let lowFires : Bool :=
        decide (minElev ≤ elevation) &&
          (match effortR with
           | some r => decide (r < thr)
           | none => false)
      if cadenceFires || lowFires then
        some
          { id := a.id
            name := a.name
            atype := atype
            elevation_gain := elevation
            suffer_score := suffer
            reasons :=
              (if cadenceFires then [EbikeReason.cadence (a.average_cadence.getD 0)] else []) ++
                (if lowFires then [EbikeReason.lowEffort (effortR.getD 0)] else [])
            recommendation := recText }
      else none

/-- Tool `detect_ebike_activities`: scan the fetched activities and keep the
suspicious ones, in order. -/
def detectEbike (acts : List Activity) (thr minElev : ℚ) : List EbikeResult :=
  acts.filterMap (classifyEbike thr minElev)

/-- The fixed multilingual template list `GENERIC_ACTIVITY_NAMES` of
`main.py` (lines 48-101). -/
def GENERIC_ACTIVITY_NAMES : List String :=
  ["Trail le matin", "Trail le midi", "Trail dans l\x27après-midi", "Trail en soirée",
   "Trail en fin de journée",
   "Course le matin", "Course le midi", "Course dans l\x27après-midi", "Course en soirée",
   "Course en fin de journée",
   "Sortie vélo le matin", "Sortie vélo le midi", "Sortie vélo dans l\x27après-midi",
   "Sortie vélo en soirée", "Sortie vélo en fin de journée",
   "VTT le matin", "VTT le midi", "VTT dans l\x27après-midi", "VTT en soirée",
   "VTT en fin de journée",
   "Randonnée le matin", "Randonnée le midi", "Randonnée dans l\x27après-midi",
   "Randonnée en soirée", "Randonnée en fin de journée",
   "Marche le matin", "Marche le midi", "Marche dans l\x27après-midi", "Marche en soirée",
   "Marche en fin de journée",
   "Morning Run", "Lunch Run", "Afternoon Run", "Evening Run", "Night Run",
   "Morning Ride", "Lunch Ride", "Afternoon Ride", "Evening Ride", "Night Ride",
   "Morning Walk", "Lunch Walk", "Afternoon Walk", "Evening Walk", "Night Walk",
   "Morning Hike", "Lunch Hike", "Afternoon Hike", "Evening Hike", "Night Hike"]

/-- The free-standing time-of-day tokens of the partial-match loop in
`main.py` `detect_generic_named_activities` (lines 468-479). -/
def genericPatterns : List String :=
  ["le matin", "le midi", "l\x27après-midi", "en soirée", "en fin de journée",
   "Morning", "Lunch", "Afternoon", "Evening", "Night"]

/-- The generic-name test of `main.py` `detect_generic_named_activities`
(lines 464-483): exact match of the stripped name against the template
list, otherwise a case-insensitive scan for one of the free-standing
time-of-day tokens inside the name. -/
def isGenericName (name : String) : Bool :=
  GENERIC_ACTIVITY_NAMES.contains (pyStrip name) ||
    genericPatterns.any (fun p => pyContains (pyLower name) (pyLower p))

/-- Modelled from the spec: the three-tier generic-name rule as the claim
words it — exact trimmed match against the template list, OR the name
case-insensitively contains or is contained by some template, OR the name
contains a free-standing time-of-day token.  Used only to compare the
spec's rule with the source's `isGenericName`. -/
def isGenericSpec (name : String) : Bool :=
  GENERIC_ACTIVITY_NAMES.contains (pyStrip name) ||
    GENERIC_ACTIVITY_NAMES.any
      (fun t => pyContains (pyLower name) (pyLower t) || pyContains (pyLower t) (pyLower name)) ||
    genericPatterns.any (fun p => pyContains (pyLower name) (pyLower p))

/-- The suffer-score bucketing of `get_activity_details_for_naming`
(`main.py` lines 627-639).  `if suffer_score:` is Python truthiness, so
an absent score and a zero score both leave the level at "unknown". -/
def effortLevel : Option ℚ → String
  | none => "unknown"
  | some s =>
      if s = 0 then "unknown"
      else if s < 50 then "easy"
      else if s < 100 then "moderate"
      else if s < 150 then "hard"
      else if s < 250 then "very_hard"
      else "extreme"

/-- The dict returned by `reverse_geocode`. -/
structure GeoResult where
  city : Option String
  state : Option String
  country : Option String
  suburb : Option String
  county : Option String
  full_address : Option String
deriving DecidableEq

/-- The all-`None` dict returned by `reverse_geocode` on failure
(`main.py` line 44; the Python dict omits the suburb/county keys, which
callers read back with `.get`, yielding `None` — the same as carrying
explicit `none` fields). -/
def geoNone : GeoResult :=
  { city := none, state := none, country := none, suburb := none, county := none,
    full_address := none }

/-- The `address` component of a raw Nominatim response. -/
structure NomAddress where
  city : Option String
  town : Option String
  village : Option String
  municipality : Option String
  hamlet : Option String
  state : Option String
  country : Option String
  suburb : Option String
  county : Option String
deriving DecidableEq

/-- A raw address with every field absent (Python `raw.get("address", {})`
when the key is missing). -/
def emptyNomAddress : NomAddress :=
  { city := none, town := none, village := none, municipality := none, hamlet := none,
    state := none, country := none, suburb := none, county := none }

/-- A geopy `Location` as far as `reverse_geocode` inspects it:
`rawTruthy` is the truthiness of `location.raw`, `addressObj` is the
optional "address" key inside it, `displayAddress` is `location.address`. -/
structure NomLoc where
  rawTruthy : Bool
  addressObj : Option NomAddress
  displayAddress : String
deriving DecidableEq

/-- The outcome of a `_geocoder.reverse` call: an exception, or an
optional `Location` (geopy returns `None` when there is no result). -/
def NomReply : Type := Except Unit (Option NomLoc)

/-- Function `reverse_geocode` from `main.py` lines 12-44 (identical in `app.py`):
any exception is swallowed; a missing location or a falsy `raw` yields the
all-`None` dict; otherwise the city is the first truthy entry of the
city → town → village → municipality → hamlet preference chain (Python
`or`), and `full_address` is the display address. -/
def reverseGeocode (reply : NomReply) : GeoResult :=
  match reply with
  | .error _ => geoNone
  | .ok none => geoNone
  | .ok (some loc) =>
      if loc.rawTruthy then
        let ad := loc.addressObj.getD emptyNomAddress
        { city := pyOrS (pyOrS (pyOrS (pyOrS ad.city ad.town) ad.village) ad.municipality) ad.hamlet
          state := ad.state
          country := ad.country
          suburb := ad.suburb
          county := ad.county
          full_address := some loc.displayAddress }
      else geoNone

/-- A lookup outcome that counts as a failure in the claim's sense:
exception, no result, or a falsy raw payload. -/
def nomFailure (reply : NomReply) : Prop :=
  reply = .error () ∨ reply = .ok none ∨ ∃ l, reply = .ok (some l) ∧ l.rawTruthy = false

/-- Python `[p for p in [city, state, country] if p]`: keep the truthy
entries. -/
def truthyParts (xs : List (Option String)) : List String :=
  xs.filterMap (fun o => if pyTruthyS o then o else none)

/-- The final human-readable location: comma-join of the truthy parts, or
the literal fallback (`main.py` lines 509-510 and 605-606). -/
def joinLocation (parts : List String) : String :=
  if parts.isEmpty then "Lieu inconnu" else String.intercalate ", " parts

/-- The location block computed by a naming tool, instrumented with the
list of parts fed to the join and with whether the reverse-geocoding
lookup was invoked. -/
structure LocOut where
  city : Option String
  state : Option String
  country : Option String
  parts : List String
  location : String
  geoCalled : Bool
deriving DecidableEq

/-- The location logic of `get_activity_details_for_naming` (`main.py`
lines 583-606): whenever coordinates are present and both are truthy the
geocoder is called; the Strava city is only replaced when falsy, and
state/country fall back through Python `or`. -/
def detailsLocation (geocode : ℚ → ℚ → GeoResult) (a : Activity) : LocOut :=
  let lc := a.location_city
  let ls := a.location_state
  let lk := a.location_country
  match a.start_latlng with
  | some (lat, lon) =>
      if lat ≠ 0 ∧ lon ≠ 0 then
        let g := geocode lat lon
        let lc2 := if pyTruthyS lc then lc else g.city
        let ls2 := pyOrS ls g.state
        let lk2 := pyOrS lk g.country
        let parts := truthyParts [lc2, ls2, lk2]
        { city := lc2, state := ls2, country := lk2, parts := parts,
          location := joinLocation parts, geoCalled := true }
      else
        let parts := truthyParts [lc, ls, lk]
        { city := lc, state := ls, country := lk, parts := parts,
          location := joinLocation parts, geoCalled := false }
  | none =>
      let parts := truthyParts [lc, ls, lk]
      { city := lc, state := ls, country := lk, parts := parts,
        location := joinLocation parts, geoCalled := false }

/-- The location logic of `detect_generic_named_activities` (`main.py`
lines 489-510): the geocoder is only consulted when the Strava city is
falsy and truthy coordinates exist. -/
def genericLocation (geocode : ℚ → ℚ → GeoResult) (a : Activity) : LocOut :=
  let lc := a.location_city
  let ls := a.location_state
  let lk := a.location_country
  match a.start_latlng with
  | some (lat, lon) =>
      if ¬ pyTruthyS lc ∧ lat ≠ 0 ∧ lon ≠ 0 then
        let g := geocode lat lon
        let lc2 := g.city
        let ls2 := pyOrS ls g.state
        let lk2 := pyOrS lk g.country
        let parts := truthyParts [lc2, ls2, lk2]
        { city := lc2, state := ls2, country := lk2, parts := parts,
          location := joinLocation parts, geoCalled := true }
      else
        let parts := truthyParts [lc, ls, lk]
        { city := lc, state := ls, country := lk, parts := parts,
          location := joinLocation parts, geoCalled := false }
  | none =>
      let parts := truthyParts [lc, ls, lk]
      { city := lc, state := ls, country := lk, parts := parts,
        location := joinLocation parts, geoCalled := false }

/-- The token pair returned by the stravalib refresh endpoint (a dict
read back with `.get(key, default)`). -/
structure RefreshTokens where
  access : Option String
  refreshTok : Option String
deriving DecidableEq

/-- Outcome of one call to the stravalib `refresh_access_token`
collaborator: an exception, or an optional token dict (`None`/falsy is
modelled as `none`; the guard `if new_tokens:`/`if tokens:` tests it). -/
def RefreshOutcome : Type := Except Unit (Option RefreshTokens)

/-- The access/refresh token pair held by a stravalib client. -/
structure ClientTokens where
  access : String
  refreshTok : String
deriving DecidableEq

/-- Method `StravaClient.refresh_access_token` (`strava_client.py` lines 25-34):
no exception handling — a collaborator failure propagates; on success the
stored tokens are updated with `.get(key, current)` fallbacks. -/
def svRefreshAccessToken (st : ClientTokens) (outcome : RefreshOutcome) :
    Except Unit ClientTokens :=
  match outcome with
  | .error e => .error e
  | .ok none => .ok st
  | .ok (some t) =>
      .ok { access := t.access.getD st.access, refreshTok := t.refreshTok.getD st.refreshTok }

/-- Method `StravaClient.get_activities` (`strava_client.py` lines 36-38): it
calls `refresh_access_token` unguarded and then fetches; the fetched list
is an oracle parameter.  Every other `StravaClient` method has the same
`self.refresh_access_token()` preamble. -/
def svGetActivities (st : ClientTokens) (outcome : RefreshOutcome)
    (fetched : List Activity) : Except Unit (ClientTokens × List Activity) :=
  match svRefreshAccessToken st outcome with
  | .error e => .error e
  | .ok st2 => .ok (st2, fetched)

/-- One entry of the web app's in-memory `user_tokens` store (a dict read
back with `.get`). -/
structure StoredTokens where
  access : Option String
  refreshTok : Option String
deriving DecidableEq

/-- The best-effort refresh block of `app.py` `get_current_client`
(lines 261-272 and 287-297): only attempted when client id, secret and
refresh token are all truthy; any exception is swallowed and the current
access token kept; a truthy result replaces the token via
`new_tokens.get("access_token", current)`. -/
def tryRefresh (cur : String) (cid csec rtok : Option String)
    (outcome : RefreshOutcome) : String :=
  if pyTruthyS cid && pyTruthyS csec && pyTruthyS rtok then
    match outcome with
    | .error _ => cur
    | .ok none => cur
    | .ok (some t) => t.access.getD cur
  else cur

/-- Function `get_current_client` from `app.py` (lines 251-299): the first stored
token pair with a truthy access token wins; otherwise the environment
tokens are used, and a missing environment access token is a hard 401
(modelled as `.error ()`).  The returned string is the access token the
client will use. -/
def getCurrentClient (stored : List StoredTokens) (cid csec envA envR : Option String)
    (outcome : RefreshOutcome) : Except Unit String :=
  match stored.find? (fun t => pyTruthyS t.access) with
  | some t => .ok (tryRefresh (t.access.getD "") cid csec t.refreshTok outcome)
  | none =>
      if pyTruthyS envA then .ok (tryRefresh (envA.getD "") cid csec envR outcome)
      else .error ()

/-- A concrete eligible mountain-bike ride: one hour moving time, 1000 m
of climbing, suffer score 30, no cadence data.  (`"MountainBikeRide"`
contains `"Ride"` but not an uppercase `"E"`.) -/
def baseRide : Activity :=
  { id := 101, name := "Sortie VTT", atype := some "MountainBikeRide",
    sport_type := some "MountainBikeRide", distance := some 15000,
    moving_time := some (.intSecs 3600), total_elevation_gain := some 1000,
    average_cadence := none, suffer_score := some 30, start_latlng := none,
    location_city := none, location_state := none, location_country := none }

/-- Variant of `baseRide` with suffer score 100 (effort per 100 m climbed = 10). -/
def rideSuffer100 : Activity := { baseRide with suffer_score := some 100 }

/-- Variant of `baseRide` with only 60 m of climbing and suffer score 1. -/
def rideLowClimb : Activity :=
  { baseRide with total_elevation_gain := some 60, suffer_score := some 1 }

/-- Variant of `baseRide` with an 85 rpm average cadence. -/
def rideCadence : Activity := { baseRide with average_cadence := some 85 }

/-- A flat ride (no climbing, no suffer score) with cadence data. -/
def rideCadenceFlat : Activity :=
  { baseRide with
    average_cadence := some 80
    total_elevation_gain := some 0
    suffer_score := none }

/-- Variant of `baseRide` with no suffer score at all. -/
def rideNoScore : Activity := { baseRide with suffer_score := none }

/-- Variant of `baseRide` with an explicit Strava city and GPS coordinates. -/
def rideLyon : Activity :=
  { baseRide with location_city := some "Lyon", start_latlng := some (45, 4) }

/-- A geocoder oracle that always resolves to Marseille. -/
def geoMarseille : ℚ → ℚ → GeoResult :=
  fun _ _ =>
    { city := some "Marseille", state := some "Provence-Alpes-Côte d\x27Azur",
      country := some "France", suburb := none, county := none,
      full_address := some "Marseille, France" }

/-- A geocoder oracle that always fails to resolve anything. -/
def geoEmptyOracle : ℚ → ℚ → GeoResult := fun _ _ => geoNone

/-- The record `detect_ebike_activities` produces for `rideCadence`
(ratio 30 / (1000/100) = 3, so both signals fire). -/
def ebikeResCadence : EbikeResult :=
  { id := 101, name := "Sortie VTT", atype := "MountainBikeRide", elevation_gain := 1000,
    suffer_score := 30, reasons := [.cadence 85, .lowEffort 3], recommendation := recText }

/-! ## Helper lemmas -/

/-- A best-effort refresh with a failing collaborator keeps the current
access token. -/
lemma tryRefresh_error (cur : String) (cid csec rtok : Option String) :
    tryRefresh cur cid csec rtok (.error ()) = cur := by
  unfold tryRefresh
  split <;> rfl

/-- A best-effort refresh whose collaborator returns a falsy token dict
keeps the current access token. -/
lemma tryRefresh_ok_none (cur : String) (cid csec rtok : Option String) :
    tryRefresh cur cid csec rtok (.ok none) = cur := by
  unfold tryRefresh
  split <;> rfl

/-! ## The claims -/

/-- C10 (amended): `to_seconds` is total; it maps `None` to 0, extracts a
`total_seconds` value unchanged, and returns an integer input as-is, so
the result is non-negative whenever the input duration is. -/
theorem to_seconds_contract (d : Option PyDuration) (hd : durNonneg d = true) :
    0 ≤ toSeconds d ∧ toSeconds none = 0 ∧
      toSeconds (some (.tdelta 125)) = 125 ∧ toSeconds (some (.intSecs 3600)) = 3600 := by
  refine ⟨?_, rfl, rfl, by norm_num [toSeconds]⟩
  cases d with
  | none => norm_num [toSeconds]
  | some p =>
      cases p with
      | tdelta s => simpa [durNonneg, toSeconds] using hd
      | intSecs n =>
          simp only [durNonneg, decide_eq_true_eq] at hd
          simp only [toSeconds]
          exact_mod_cast hd

/-- Witness for C10 at the integer input 3600. -/
theorem to_seconds_contract_witness :
    durNonneg (some (.intSecs 3600)) = true ∧
      (0 ≤ toSeconds (some (.intSecs 3600)) ∧ toSeconds none = 0 ∧
        toSeconds (some (.tdelta 125)) = 125 ∧ toSeconds (some (.intSecs 3600)) = 3600) :=
  ⟨by decide, to_seconds_contract (some (.intSecs 3600)) (by decide)⟩

/-- Counterexample to C10 as stated: a negative integer duration is
passed through unchanged, so the result is negative. -/
theorem to_seconds_negative_passthrough :
    toSeconds (some (.intSecs (-1))) = -1 ∧ toSeconds (some (.intSecs (-1))) < 0 := by
  norm_num [toSeconds]

/-- C5 (amended): for a positive suffer score the five ordered tiers
apply; an absent score yields "unknown" (and so does a zero score, per
the counterexample); the four boundary examples hold. -/
theorem effort_level_buckets (s : ℚ) (hs : 0 < s) :
    effortLevel (some s) =
      (if s < 50 then "easy" else if s < 100 then "moderate" else if s < 150 then "hard"
       else if s < 250 then "very_hard" else "extreme") ∧
    effortLevel none = "unknown" ∧
    effortLevel (some 49) = "easy" ∧ effortLevel (some 50) = "moderate" ∧
    effortLevel (some 249) = "very_hard" ∧ effortLevel (some 250) = "extreme" := by
  refine ⟨?_, rfl, ?_, ?_, ?_, ?_⟩ <;> norm_num [effortLevel, ne_of_gt hs]

/-- Witness for C5 at suffer score 49. -/
theorem effort_level_buckets_witness :
    0 < (49 : ℚ) ∧
      (effortLevel (some 49) =
        (if (49 : ℚ) < 50 then "easy" else if (49 : ℚ) < 100 then "moderate"
         else if (49 : ℚ) < 150 then "hard" else if (49 : ℚ) < 250 then "very_hard"
         else "extreme") ∧
      effortLevel none = "unknown" ∧
      effortLevel (some 49) = "easy" ∧ effortLevel (some 50) = "moderate" ∧
      effortLevel (some 249) = "very_hard" ∧ effortLevel (some 250) = "extreme") :=
  ⟨by norm_num, effort_level_buckets 49 (by norm_num)⟩

/-- Counterexample to C5 as stated: a present suffer score of 0 is below
50, yet Python truthiness (`if suffer_score:`) leaves the level at
"unknown" instead of "easy". -/
theorem effort_level_zero_is_unknown :
    effortLevel (some 0) = "unknown" ∧ (0 : ℚ) < 50 ∧ effortLevel (some 0) ≠ "easy" := by
  refine ⟨by norm_num [effortLevel], by norm_num, ?_⟩
  norm_num +decide [effortLevel]

/-- C7 (amended): `reverse_geocode` is a total function of the lookup
outcome; an exception, a missing result, or a falsy raw payload yields
the all-`None` dict (a non-empty raw payload that merely lacks the
`address` component keeps the display address, per the counterexample);
and the caller's comma-join degrades to "Lieu inconnu" when city, state
and country are all empty. -/
theorem reverse_geocode_failure_contract (reply : NomReply) (hf : nomFailure reply)
    (c s k : Option String) (hc : pyTruthyS c = false) (hs : pyTruthyS s = false)
    (hk : pyTruthyS k = false) :
    reverseGeocode reply = geoNone ∧
      joinLocation (truthyParts [c, s, k]) = "Lieu inconnu" := by
  constructor
  · rcases hf with h | h | ⟨l, h, hl⟩
    · subst h; rfl
    · subst h; rfl
    · subst h; simp [reverseGeocode, hl]
  · simp [truthyParts, joinLocation, hc, hs, hk]

/-- Witness for C7: an exception outcome and three absent fields. -/
theorem reverse_geocode_failure_contract_witness :
    nomFailure (.error ()) ∧ pyTruthyS none = false ∧
      (reverseGeocode (.error ()) = geoNone ∧
        joinLocation (truthyParts [none, none, none]) = "Lieu inconnu") :=
  ⟨Or.inl rfl, rfl,
    reverse_geocode_failure_contract (.error ()) (Or.inl rfl) none none none rfl rfl rfl⟩

/-- Counterexample to C7 as stated: a malformed response whose raw
payload is truthy but carries no `address` component yields `None` city,
state and country, yet keeps the display address in `full_address`
instead of `None`. -/
theorem reverse_geocode_malformed_keeps_address :
    (reverseGeocode (.ok (some
        { rawTruthy := true, addressObj := none, displayAddress := "45, 4" }))).city = none ∧
    (reverseGeocode (.ok (some
        { rawTruthy := true, addressObj := none, displayAddress := "45, 4" }))).state = none ∧
    (reverseGeocode (.ok (some
        { rawTruthy := true, addressObj := none, displayAddress := "45, 4" }))).country = none ∧
    (reverseGeocode (.ok (some
        { rawTruthy := true, addressObj := none, displayAddress := "45, 4" }))).full_address =
      some "45, 4" := by
  decide

/-- C8 (amended): in the web app's `get_current_client`, a failing
credential refresh is swallowed and the tool call proceeds with the
stale stored access token, exactly as if the refresh had returned
nothing.  (In the `StravaClient` wrapper the refresh is unguarded and a
failure propagates, per the counterexample.) -/
theorem refresh_failure_swallowed_web (stored : List StoredTokens)
    (cid csec envA envR : Option String) (t : StoredTokens)
    (hfind : stored.find? (fun x => pyTruthyS x.access) = some t) :
    getCurrentClient stored cid csec envA envR (.error ()) = .ok (t.access.getD "") ∧
      getCurrentClient stored cid csec envA envR (.error ()) =
        getCurrentClient stored cid csec envA envR (.ok none) := by
  unfold getCurrentClient
  rw [hfind]
  simp [tryRefresh_error, tryRefresh_ok_none]

/-- Witness for C8 with one stored token pair. -/
theorem refresh_failure_swallowed_web_witness :
    ([({ access := some "stale", refreshTok := some "r" } : StoredTokens)].find?
        (fun x => pyTruthyS x.access) =
      some { access := some "stale", refreshTok := some "r" }) ∧
    (getCurrentClient [{ access := some "stale", refreshTok := some "r" }]
        (some "cid") (some "sec") none none (.error ()) = .ok "stale" ∧
      getCurrentClient [{ access := some "stale", refreshTok := some "r" }]
        (some "cid") (some "sec") none none (.error ()) =
        getCurrentClient [{ access := some "stale", refreshTok := some "r" }]
          (some "cid") (some "sec") none none (.ok none)) :=
  ⟨by decide,
    refresh_failure_swallowed_web [{ access := some "stale", refreshTok := some "r" }]
      (some "cid") (some "sec") none none { access := some "stale", refreshTok := some "r" }
      (by decide)⟩

/-- Counterexample to C8 as stated: `StravaClient.get_activities` calls
the unguarded `refresh_access_token` first, so a refresh failure alone
fails the whole tool call. -/
theorem strava_client_refresh_failure_fails_call :
    svGetActivities { access := "stale", refreshTok := "r" } (.error ()) [] = .error () :=
  rfl

/-- C4 (amended): the generic-name test of `detect_generic_named_activities`
in `main.py` returns True exactly when the trimmed name is an exact
(case-sensitive) member of the template list, or the name
case-insensitively contains one of the free-standing time-of-day tokens;
the claim's three examples behave as stated.  (The bidirectional
template-substring tier the claim describes is absent from this
implementation, per the counterexample.) -/
theorem generic_name_rule (name : String) :
    (isGenericName name = true ↔
      (GENERIC_ACTIVITY_NAMES.contains (pyStrip name) = true ∨
        ∃ p ∈ genericPatterns, pyContains (pyLower name) (pyLower p) = true)) ∧
    isGenericName "Morning Run" = true ∧
    isGenericName "Sunset climb of Mont Ventoux" = false ∧
    isGenericName "morning run variant text" = true := by
  refine ⟨?_, by decide, by decide, by decide⟩
  simp [isGenericName, List.any_eq_true]

/-- Counterexample to C4 as stated: "unch Ru" is case-insensitively
contained in the template "Lunch Run", so the claim's substring tier
calls it generic, but the source's test (exact template match plus
time-of-day tokens only) does not. -/
theorem generic_name_missing_substring_tier :
    isGenericSpec "unch Ru" = true ∧ isGenericName "unch Ru" = false := by
  decide

/-- C6 (amended): whenever an activity carries a truthy explicit
location_city, both naming tools resolve that city, place it first in the
joined location parts, never let a geocoded value overwrite it — the
resolved city is independent of the geocoder oracle — and
`detect_generic_named_activities` skips the reverse lookup entirely.
(`get_activity_details_for_naming` may still invoke the lookup to fill
state and country, per the counterexample.) -/
theorem explicit_city_priority (g g2 : ℚ → ℚ → GeoResult) (a : Activity) (c : String)
    (hc : a.location_city = some c) (hne : c ≠ "") :
    (detailsLocation g a).city = some c ∧
    (detailsLocation g a).parts.head? = some c ∧
    (detailsLocation g a).city = (detailsLocation g2 a).city ∧
    (genericLocation g a).city = some c ∧
    (genericLocation g a).geoCalled = false := by
  have hsc : pyTruthyS (some c) = true := by simp [pyTruthyS, hne]
  have hdet : ∀ g0 : ℚ → ℚ → GeoResult, (detailsLocation g0 a).city = some c := by
    intro g0
    unfold detailsLocation
    cases hll : a.start_latlng with
    | none => simpa using hc
    | some p =>
        obtain ⟨lat, lon⟩ := p
        by_cases hz : lat ≠ 0 ∧ lon ≠ 0
        · simp [hz, hsc, hc]
        · simp [hz, hc]
  have hparts : (detailsLocation g a).parts.head? = some c := by
    unfold detailsLocation
    cases hll : a.start_latlng with
    | none => simp [truthyParts, hsc, hc]
    | some p =>
        obtain ⟨lat, lon⟩ := p
        by_cases hz : lat ≠ 0 ∧ lon ≠ 0
        · simp [hz, truthyParts, hsc, hc]
        · simp [hz, truthyParts, hsc, hc]
  have hgen : (genericLocation g a).city = some c ∧ (genericLocation g a).geoCalled = false := by
    unfold genericLocation
    cases hll : a.start_latlng with
    | none => simp [hc]
    | some p =>
        obtain ⟨lat, lon⟩ := p
        simp [hsc, hc]
  exact ⟨hdet g, hparts, (hdet g).trans (hdet g2).symm, hgen.1, hgen.2⟩

/-- Witness for C6: the explicit city "Lyon" with two different geocoder
oracles. -/
theorem explicit_city_priority_witness :
    rideLyon.location_city = some "Lyon" ∧ "Lyon" ≠ "" ∧
      ((detailsLocation geoMarseille rideLyon).city = some "Lyon" ∧
        (detailsLocation geoMarseille rideLyon).parts.head? = some "Lyon" ∧
        (detailsLocation geoMarseille rideLyon).city =
          (detailsLocation geoEmptyOracle rideLyon).city ∧
        (genericLocation geoMarseille rideLyon).city = some "Lyon" ∧
        (genericLocation geoMarseille rideLyon).geoCalled = false) :=
  ⟨rfl, by decide,
    explicit_city_priority geoMarseille geoEmptyOracle rideLyon "Lyon" rfl (by decide)⟩

/-- Counterexample to C6 as stated: with an explicit city and truthy
coordinates, `get_activity_details_for_naming` still calls the reverse
lookup (to fill state and country). -/
theorem details_location_invokes_geocoder :
    (detailsLocation geoMarseille rideLyon).geoCalled = true ∧
      rideLyon.location_city = some "Lyon" := by
  constructor
  · norm_num +decide [detailsLocation, rideLyon, baseRide]
  · rfl

/-- Evaluation of the classifier on an eligible ride with no positive
cadence and more than 100 m of climbing at or above the elevation gate:
only the effort-ratio signal can fire. -/
lemma classifyEbike_no_cadence (thr minElev : ℚ) (a : Activity)
    (hR : pyContains (a.atype.getD "") "Ride" = true)
    (hE : (pyTruthyS a.sport_type && pyContains (a.sport_type.getD "") "E") = false)
    (hT : 600 ≤ toSeconds a.moving_time)
    (hC : ∀ c, a.average_cadence = some c → c ≤ 0)
    (hMin : minElev ≤ a.total_elevation_gain.getD 0)
    (h100 : 100 < a.total_elevation_gain.getD 0) :
    classifyEbike thr minElev a =
      if a.suffer_score.getD 0 / (a.total_elevation_gain.getD 0 / 100) < thr then
        some { id := a.id, name := a.name, atype := a.atype.getD "",
               elevation_gain := a.total_elevation_gain.getD 0,
               suffer_score := a.suffer_score.getD 0,
               reasons := [EbikeReason.lowEffort
                 (a.suffer_score.getD 0 / (a.total_elevation_gain.getD 0 / 100))],
               recommendation := recText }
      else none := by
  have hT' : ¬ toSeconds a.moving_time < 600 := not_lt.mpr hT
  cases hca : a.average_cadence with
  | none =>
      by_cases hlt : a.suffer_score.getD 0 / (a.total_elevation_gain.getD 0 / 100) < thr
      · simp [classifyEbike, hR, hE, hT', hca, h100, hMin, hlt]
      · simp [classifyEbike, hR, hE, hT', hca, h100, hMin, hlt]
  | some cc =>
      have hcc : ¬ (0 < cc) := not_lt.mpr (hC cc hca)
      by_cases hlt : a.suffer_score.getD 0 / (a.total_elevation_gain.getD 0 / 100) < thr
      · simp [classifyEbike, hR, hE, hT', hca, hcc, h100, hMin, hlt]
      · simp [classifyEbike, hR, hE, hT', hca, hcc, h100, hMin, hlt]

/-- C1 (amended): on an eligible ride (type contains "Ride", sport type
without an "E" marker, at least 600 s moving) with no positive cadence,
elevation at least `min_elevation` and — as the code requires before any
ratio exists — above 100 m, the classifier flags the activity with the
single low-effort reason carrying
`effort_ratio = suffer_score / (elevation_gain / 100)` exactly when that
ratio is below the threshold; in particular suffer score 30 over 1000 m
gives ratio 3 and is flagged, while suffer score 100 gives ratio 10 and
is not. -/
theorem ebike_low_effort_signal (thr minElev : ℚ) (a : Activity)
    (hR : pyContains (a.atype.getD "") "Ride" = true)
    (hE : (pyTruthyS a.sport_type && pyContains (a.sport_type.getD "") "E") = false)
    (hT : 600 ≤ toSeconds a.moving_time)
    (hC : ∀ c, a.average_cadence = some c → c ≤ 0)
    (hMin : minElev ≤ a.total_elevation_gain.getD 0)
    (h100 : 100 < a.total_elevation_gain.getD 0) :
    ((∃ r, classifyEbike thr minElev a = some r ∧
        r.reasons = [EbikeReason.lowEffort
          (a.suffer_score.getD 0 / (a.total_elevation_gain.getD 0 / 100))]) ↔
      a.suffer_score.getD 0 / (a.total_elevation_gain.getD 0 / 100) < thr) ∧
    (∃ r, classifyEbike (4.5 : ℚ) 200 baseRide = some r ∧
      r.reasons = [EbikeReason.lowEffort 3]) ∧
    classifyEbike (4.5 : ℚ) 200 rideSuffer100 = none := by
  refine ⟨?_, ?_, ?_⟩
  · rw [classifyEbike_no_cadence thr minElev a hR hE hT hC hMin h100]
    by_cases hlt : a.suffer_score.getD 0 / (a.total_elevation_gain.getD 0 / 100) < thr
    · simp [hlt]
    · simp [hlt]
  · exact ⟨{ id := 101, name := "Sortie VTT", atype := "MountainBikeRide",
             elevation_gain := 1000, suffer_score := 30,
             reasons := [EbikeReason.lowEffort 3], recommendation := recText },
           by norm_num +decide [classifyEbike, toSeconds, baseRide], rfl⟩
  · norm_num +decide [classifyEbike, toSeconds, rideSuffer100, baseRide]

/-- Witness for C1 at `baseRide` (1000 m, suffer score 30, threshold
4.5, elevation gate 200). -/
theorem ebike_low_effort_signal_witness :
    pyContains (baseRide.atype.getD "") "Ride" = true ∧
    600 ≤ toSeconds baseRide.moving_time ∧
    (((∃ r, classifyEbike (4.5 : ℚ) 200 baseRide = some r ∧
        r.reasons = [EbikeReason.lowEffort
          (baseRide.suffer_score.getD 0 / (baseRide.total_elevation_gain.getD 0 / 100))]) ↔
      baseRide.suffer_score.getD 0 / (baseRide.total_elevation_gain.getD 0 / 100) < 4.5) ∧
    (∃ r, classifyEbike (4.5 : ℚ) 200 baseRide = some r ∧
      r.reasons = [EbikeReason.lowEffort 3]) ∧
    classifyEbike (4.5 : ℚ) 200 rideSuffer100 = none) :=
  ⟨by decide, by norm_num [toSeconds, baseRide],
    ebike_low_effort_signal (4.5 : ℚ) 200 baseRide (by decide) (by decide)
      (by norm_num [toSeconds, baseRide]) (by simp [baseRide])
      (by norm_num [baseRide]) (by norm_num [baseRide])⟩

/-- Counterexample to C1 as stated: with `min_elevation = 50` the ride
`rideLowClimb` (60 m of climbing, suffer score 1) is eligible and has
effort ratio 1 / (60/100) = 5/3 < 4.5, yet the code computes no ratio at
all below 100 m of elevation and returns no suspicious record. -/
theorem ebike_low_effort_gap_below_100m :
    pyContains (rideLowClimb.atype.getD "") "Ride" = true ∧
    600 ≤ toSeconds rideLowClimb.moving_time ∧
    (50 : ℚ) ≤ rideLowClimb.total_elevation_gain.getD 0 ∧
    rideLowClimb.suffer_score.getD 0 / (rideLowClimb.total_elevation_gain.getD 0 / 100) <
      (4.5 : ℚ) ∧
    detectEbike [rideLowClimb] (4.5 : ℚ) 50 = [] := by
  refine ⟨by decide, by norm_num [toSeconds, rideLowClimb, baseRide], ?_, ?_, ?_⟩
  · norm_num [rideLowClimb, baseRide]
  · norm_num [rideLowClimb, baseRide]
  · norm_num +decide [detectEbike, classifyEbike, toSeconds, rideLowClimb, baseRide]

/-- C2: on an eligible ride, any positive average cadence flags the
activity regardless of the effort ratio; the reasons list starts with the
cadence reason, additionally carries the (distinct) low-effort reason
exactly when that signal also fires, and the record carries the fixed
recommendation string. -/
theorem ebike_cadence_overrides (thr minElev : ℚ) (a : Activity) (c : ℚ)
    (hR : pyContains (a.atype.getD "") "Ride" = true)
    (hE : (pyTruthyS a.sport_type && pyContains (a.sport_type.getD "") "E") = false)
    (hT : 600 ≤ toSeconds a.moving_time)
    (hca : a.average_cadence = some c) (hpos : 0 < c) :
    ∃ r, classifyEbike thr minElev a = some r ∧ r.recommendation = recText ∧
      r.reasons =
        EbikeReason.cadence c ::
          (if minElev ≤ a.total_elevation_gain.getD 0 ∧
              100 < a.total_elevation_gain.getD 0 ∧
              a.suffer_score.getD 0 / (a.total_elevation_gain.getD 0 / 100) < thr then
            [EbikeReason.lowEffort
              (a.suffer_score.getD 0 / (a.total_elevation_gain.getD 0 / 100))]
          else []) ∧
      (∀ q, EbikeReason.cadence c ≠ EbikeReason.lowEffort q) := by
  have hT' : ¬ toSeconds a.moving_time < 600 := not_lt.mpr hT
  by_cases h1 : minElev ≤ a.total_elevation_gain.getD 0 <;>
    by_cases h2 : 100 < a.total_elevation_gain.getD 0 <;>
      by_cases h3 : a.suffer_score.getD 0 / (a.total_elevation_gain.getD 0 / 100) < thr <;>
        simp [classifyEbike, hR, hE, hT', hca, hpos, h1, h2, h3]

/-- Witness for C2 at `rideCadence` (85 rpm, both signals fire). -/
theorem ebike_cadence_overrides_witness :
    rideCadence.average_cadence = some 85 ∧ (0 : ℚ) < 85 ∧
    (∃ r, classifyEbike (4.5 : ℚ) 200 rideCadence = some r ∧ r.recommendation = recText ∧
      r.reasons =
        EbikeReason.cadence 85 ::
          (if (200 : ℚ) ≤ rideCadence.total_elevation_gain.getD 0 ∧
              100 < rideCadence.total_elevation_gain.getD 0 ∧
              rideCadence.suffer_score.getD 0 /
                (rideCadence.total_elevation_gain.getD 0 / 100) < (4.5 : ℚ) then
            [EbikeReason.lowEffort
              (rideCadence.suffer_score.getD 0 /
                (rideCadence.total_elevation_gain.getD 0 / 100))]
          else []) ∧
      (∀ q, EbikeReason.cadence 85 ≠ EbikeReason.lowEffort q)) :=
  ⟨rfl, by norm_num,
    ebike_cadence_overrides (4.5 : ℚ) 200 rideCadence 85 (by decide) (by decide)
      (by norm_num [toSeconds, rideCadence, baseRide]) rfl (by norm_num)⟩

/-- C3 (amended): every record returned by `detect_ebike_activities`
comes from an activity whose type contains "Ride", whose truthy sport
type carries no "E" marker, and which moved for at least 600 seconds;
ineligible activities are silently skipped, never an error.  (Elevation
below `min_elevation` does not exclude an activity — it only disables the
effort-ratio signal, per the counterexample.) -/
theorem ebike_eligibility_filter (acts : List Activity) (thr minElev : ℚ) (r : EbikeResult)
    (hr : r ∈ detectEbike acts thr minElev) :
    ∃ a ∈ acts, r.id = a.id ∧ pyContains (a.atype.getD "") "Ride" = true ∧
      (pyTruthyS a.sport_type && pyContains (a.sport_type.getD "") "E") = false ∧
      600 ≤ toSeconds a.moving_time := by
  rw [detectEbike, List.mem_filterMap] at hr
  obtain ⟨a, ha, hcl⟩ := hr
  refine ⟨a, ha, ?_⟩
  simp only [classifyEbike] at hcl
  split_ifs at hcl with h1 h2 h3 h4 h5 h6 h7 h8 h9 h10 <;>
    first
      | exact Option.noConfusion hcl
      | (obtain rfl : _ = r := Option.some.inj hcl
         exact ⟨rfl, by simpa using h1, by simpa using h2, not_lt.mp h3⟩)

/-- Witness for C3 at the one-element list `[rideCadence]`, whose
classification is `ebikeResCadence`. -/
theorem ebike_eligibility_filter_witness :
    ebikeResCadence ∈ detectEbike [rideCadence] (4.5 : ℚ) 200 ∧
      ∃ a ∈ [rideCadence], ebikeResCadence.id = a.id ∧
        pyContains (a.atype.getD "") "Ride" = true ∧
        (pyTruthyS a.sport_type && pyContains (a.sport_type.getD "") "E") = false ∧
        600 ≤ toSeconds a.moving_time := by
  have hmem : ebikeResCadence ∈ detectEbike [rideCadence] (4.5 : ℚ) 200 := by
    norm_num +decide [detectEbike, classifyEbike, toSeconds, rideCadence, baseRide,
      ebikeResCadence, recText]
  exact ⟨hmem, ebike_eligibility_filter [rideCadence] (4.5 : ℚ) 200 ebikeResCadence hmem⟩

/-- Counterexample to C3 as stated: `rideCadenceFlat` has 0 m elevation
gain, far below the 200 m gate, yet its positive cadence alone puts it in
the result list. -/
theorem ebike_includes_low_elevation :
    (detectEbike [rideCadenceFlat] (4.5 : ℚ) 200).length = 1 ∧
      rideCadenceFlat.total_elevation_gain.getD 0 < 200 := by
  constructor
  · norm_num +decide [detectEbike, classifyEbike, toSeconds, rideCadenceFlat, baseRide]
  · norm_num [rideCadenceFlat, baseRide]

/-- C9: an eligible ride with no suffer score and no positive cadence,
climbing at least `min_elevation` and more than 100 m, is always flagged:
the absent score is substituted with 0, the effort ratio collapses to 0,
and 0 is below every positive threshold. -/
theorem ebike_missing_score_flagged (acts : List Activity) (thr minElev : ℚ) (a : Activity)
    (ha : a ∈ acts)
    (hR : pyContains (a.atype.getD "") "Ride" = true)
    (hE : (pyTruthyS a.sport_type && pyContains (a.sport_type.getD "") "E") = false)
    (hT : 600 ≤ toSeconds a.moving_time)
    (hS : a.suffer_score = none)
    (hC : ∀ c, a.average_cadence = some c → c ≤ 0)
    (hMin : minElev ≤ a.total_elevation_gain.getD 0)
    (h100 : 100 < a.total_elevation_gain.getD 0)
    (hthr : 0 < thr) :
    ∃ r ∈ detectEbike acts thr minElev, r.id = a.id ∧ r.suffer_score = 0 ∧
      r.reasons = [EbikeReason.lowEffort 0] := by
  have h0 : a.suffer_score.getD 0 / (a.total_elevation_gain.getD 0 / 100) = 0 := by
    simp [hS]
  have hcl := classifyEbike_no_cadence thr minElev a hR hE hT hC hMin h100
  rw [h0, if_pos hthr] at hcl
  refine ⟨{ id := a.id, name := a.name, atype := a.atype.getD "",
            elevation_gain := a.total_elevation_gain.getD 0,
            suffer_score := a.suffer_score.getD 0,
            reasons := [EbikeReason.lowEffort 0],
            recommendation := recText }, ?_, rfl, by simp [hS], rfl⟩
  rw [detectEbike, List.mem_filterMap]
  exact ⟨a, ha, hcl⟩

/-- Witness for C9 at `rideNoScore` (1000 m climbed, no suffer score). -/
theorem ebike_missing_score_flagged_witness :
    rideNoScore ∈ [rideNoScore] ∧ rideNoScore.suffer_score = none ∧ (0 : ℚ) < 4.5 ∧
      ∃ r ∈ detectEbike [rideNoScore] (4.5 : ℚ) 200, r.id = rideNoScore.id ∧
        r.suffer_score = 0 ∧ r.reasons = [EbikeReason.lowEffort 0] :=
  ⟨List.mem_singleton.mpr rfl, rfl, by norm_num,
    ebike_missing_score_flagged [rideNoScore] (4.5 : ℚ) 200 rideNoScore
      (List.mem_singleton.mpr rfl) (by decide) (by decide)
      (by norm_num [toSeconds, rideNoScore, baseRide]) rfl
      (by simp [rideNoScore, baseRide]) (by norm_num [rideNoScore, baseRide])
      (by norm_num [rideNoScore, baseRide]) (by norm_num)⟩
